import Mathlib

/-!
Shallow embedding of the `snow` bootstrapper (src/snow/src/main.rs and
src/snow/src/mount.rs).

The program is a straight-line pipeline of kernel operations (unshare,
mount, mkdir, loop-device attachment, pivot_root, chdir, execve).  We
embed it as a writer/except computation: every kernel operation that the
program attempts is recorded as an `Event` in a trace, and the outcome of
each operation is decided by an oracle (`Kernel`) standing for the host
kernel.  Rust `?` propagation becomes `Res.bind`; a Rust `panic!` /
`.expect` becomes the `Err.panicked` outcome, distinct from the
`Err.failure` outcome produced by `anyhow` error propagation.

The ELF parsing performed by `get_squashfs_section_address` via the
`goblin` crate is embedded as a pure function over an `ElfFile` record
holding the section-header table and the section-header string table
(`shdr_strtab.get_at` becomes an association-list lookup).
-/

namespace Snow

/-- The mount flags used by the program (from `nix::mount::MsFlags`). -/
inductive MsFlag
  | MS_RDONLY
  | MS_BIND
  | MS_REMOUNT
  | MS_PRIVATE
  | MS_REC
deriving DecidableEq

/-- One call to `nix::mount::mount`, with all five arguments. -/
structure MountCall where
  source : Option String
  target : String
  fstype : Option String
  flags : List MsFlag
  data : Option String
deriving DecidableEq

/-- A kernel operation attempted by the program.  An event is recorded at
the moment the corresponding system call is issued, whether or not the
kernel reports success. -/
inductive Event
  | unshareNewNS
  | mountEv (c : MountCall)
  | mkdirEv (path : String) (mode : Nat)
  | loopAttach (file : String) (offset : Nat) (readOnly : Bool)
  | pivotRootEv (newRoot : String) (putOld : String)
  | chdirEv (path : String)
  | execveEv (path : String) (argv : List String) (envp : List String)
deriving DecidableEq

/-- How a run of a fallible piece of the program can go wrong: `failure`
is a Rust `Err` propagated with `?` (anyhow), `panicked` is a Rust panic
(`.expect` / out-of-bounds indexing). -/
inductive Err
  | failure (msg : String)
  | panicked (msg : String)
deriving DecidableEq

instance {ε α : Type} [DecidableEq ε] [DecidableEq α] : DecidableEq (Except ε α) :=
  fun x y =>
    match x, y with
    | Except.error e, Except.error f =>
      if h : e = f then isTrue (by rw [h]) else isFalse (by intro hc; cases hc; exact h rfl)
    | Except.ok a, Except.ok b =>
      if h : a = b then isTrue (by rw [h]) else isFalse (by intro hc; cases hc; exact h rfl)
    | Except.error _, Except.ok _ => isFalse (by intro hc; cases hc)
    | Except.ok _, Except.error _ => isFalse (by intro hc; cases hc)

/-- Result of running a program fragment: the trace of attempted kernel
operations together with the outcome. -/
abbrev Res (α : Type) : Type := List Event × Except Err α

/-- Sequencing with Rust `?` semantics: on error the rest of the program
does not run; on success the traces concatenate. -/
def Res.bind {α β : Type} : Res α → (α → Res β) → Res β
  | (t, Except.error e), _ => (t, Except.error e)
  | (t, Except.ok a), f => (t ++ (f a).1, (f a).2)

/-- One ELF section header; only the fields the program reads. -/
structure SectionHeader where
  sh_name : Nat
  sh_addr : Nat
  sh_offset : Nat
deriving DecidableEq

/-- The parsed ELF data the program inspects: the section-header table
and the section-header string table.  `shdr_strtab` is the graph of
goblin's `get_at`: the strings readable at each offset. -/
structure ElfFile where
  section_headers : List SectionHeader
  shdr_strtab : List (Nat × String)
deriving DecidableEq

/-- goblin `Strtab::get_at`: the string stored at a given offset, if any. -/
def strtabGetAt (tab : List (Nat × String)) (i : Nat) : Option String :=
  (tab.find? (fun e => e.1 == i)).map (fun e => e.2)

/-- Possible outcomes of the section-scanning loop in
`get_squashfs_section_address`. -/
inductive LocOutcome
  | found (addr : Nat)
  | notFound
  | panicked (msg : String)
deriving DecidableEq

/-- The loop body of `get_squashfs_section_address`: walk the section
headers in order; for each, look its name up in the string table
(`.expect` panics if the lookup fails); on the first section named
".squashfs", return that section's `sh_addr` field. -/
def findSquashfsGo (tab : List (Nat × String)) : List SectionHeader → LocOutcome
  | [] => LocOutcome.notFound
  | s :: rest =>
    match strtabGetAt tab s.sh_name with
    | none => LocOutcome.panicked "failed to get section name"
    | some name =>
      if name = ".squashfs" then LocOutcome.found s.sh_addr
      else findSquashfsGo tab rest

/-- The section scan of `get_squashfs_section_address` on a parsed ELF. -/
def findSquashfs (elf : ElfFile) : LocOutcome :=
  findSquashfsGo elf.shdr_strtab elf.section_headers

/-- The host-kernel oracle: decides the outcome of every system call the
program can issue, and supplies the parse of `/proc/self/exe` and the
path of the acquired loop device. -/
structure Kernel where
  elf : Except String ElfFile
  unshareOk : Bool
  mountOk : MountCall → Bool
  mkdirOk : String → Bool
  loopFreeOk : Bool
  loopAttachOk : Bool
  loopPath : Option String
  pivotOk : String → String → Bool
  chdirOk : String → Bool
  execOk : Bool

/-- `get_squashfs_section_address`: read and parse `/proc/self/exe`
(failures propagate as errors), then scan the sections.  Returns
`some sh_addr` for the first section named ".squashfs", `none` when no
such section exists, and panics when a name lookup fails. -/
def get_squashfs_section_address (K : Kernel) : Except Err (Option Nat) :=
  match K.elf with
  | Except.error msg => Except.error (Err.failure msg)
  | Except.ok elf =>
    match findSquashfs elf with
    | LocOutcome.panicked msg => Except.error (Err.panicked msg)
    | LocOutcome.found addr => Except.ok (some addr)
    | LocOutcome.notFound => Except.ok none

/-- A single `nix::mount::mount` call with the given arguments. -/
def mountStep (K : Kernel) (c : MountCall) : Res Unit :=
  ([Event.mountEv c],
   if K.mountOk c then Except.ok () else Except.error (Err.failure "mount failed"))

/-- A single `nix::unistd::mkdir` call with mode `S_IRWXU` (0o700 = 448). -/
def mkdirStep (K : Kernel) (path : String) : Res Unit :=
  ([Event.mkdirEv path 448],
   if K.mkdirOk path then Except.ok () else Except.error (Err.failure "mkdir failed"))

/-- The `mount(None, "/", None, MS_PRIVATE | MS_REC, None)` call of
`enter_new_mount_ns`. -/
def privateRecRootCall : MountCall :=
  { source := none, target := "/", fstype := none,
    flags := [MsFlag.MS_PRIVATE, MsFlag.MS_REC], data := none }

/-- `enter_new_mount_ns`: `unshare(CLONE_NEWNS)` then remount `/` as
private and recursive. -/
def enter_new_mount_ns (K : Kernel) : Res Unit :=
  Res.bind
    ([Event.unshareNewNS],
     if K.unshareOk then Except.ok () else Except.error (Err.failure "unshare failed"))
    (fun _ => mountStep K privateRecRootCall)

/-- `create_loop_device`: open the loop-control device and take the next
free slot (collapsed into `loopFreeOk`), then attach the target file at
the given offset, read-only. -/
def create_loop_device (K : Kernel) (target_file : String) (offset : Nat) : Res Unit :=
  if K.loopFreeOk then
    ([Event.loopAttach target_file offset true],
     if K.loopAttachOk then Except.ok () else Except.error (Err.failure "loop attach failed"))
  else ([], Except.error (Err.failure "loop control failed"))

/-- `loop_device.path().expect("failed to get path of loop device!")` in
`main`: a panic when the kernel reports no path. -/
def get_loop_device_path (K : Kernel) : Res String :=
  ([], match K.loopPath with
       | some p => Except.ok p
       | none => Except.error (Err.panicked "failed to get path of loop device!"))

/-- `create_overlayfs_directories`: mkdir `lower`, `work`, `upper`,
`merged` (in this order) under the target, each with mode 0o700. -/
def create_overlayfs_directories (K : Kernel) (target : String) : Res Unit :=
  Res.bind (mkdirStep K (target ++ "/lower")) (fun _ =>
  Res.bind (mkdirStep K (target ++ "/work")) (fun _ =>
  Res.bind (mkdirStep K (target ++ "/upper")) (fun _ =>
  mkdirStep K (target ++ "/merged"))))

/-- `pivot_rootfs_place_old_at_mnt_root`: mkdir `new_root/mnt/root`,
`pivot_root(new_root, new_root/mnt/root)`, then `chdir("/root")`. -/
def pivot_rootfs_place_old_at_mnt_root (K : Kernel) (new_root : String) : Res Unit :=
  Res.bind (mkdirStep K (new_root ++ "/mnt/root")) (fun _ =>
  Res.bind
    ([Event.pivotRootEv new_root (new_root ++ "/mnt/root")],
     if K.pivotOk new_root (new_root ++ "/mnt/root") then Except.ok ()
     else Except.error (Err.failure "pivot_root failed"))
    (fun _ =>
      ([Event.chdirEv "/root"],
       if K.chdirOk "/root" then Except.ok ()
       else Except.error (Err.failure "chdir failed"))))

/-- Whether a string contains an interior NUL byte (makes
`CString::new` fail). -/
def hasNul (s : String) : Bool := s.data.any (fun c => c == Char.ofNat 0)

/-- The per-argument conversion in `exec_zsh`:
`CString::new(arg).map_or(CString::default(), |res| res)` — an argument
with an interior NUL collapses to the empty string, all others pass
through unchanged. -/
def toCStringLossy (s : String) : String := if hasNul s then "" else s

/-- `exec_zsh`: convert every process argument, replace slot 0 with
"zsh" (panicking when the argument vector is empty, as the Rust
indexing does), and `execve("/bin/zsh", argv, &[])` with an empty
environment block. -/
def exec_zsh (K : Kernel) (args : List String) : Res Unit :=
  match args.map toCStringLossy with
  | [] => ([], Except.error (Err.panicked "index out of bounds"))
  | _head :: rest =>
    ([Event.execveEv "/bin/zsh" ("zsh" :: rest) []],
     if K.execOk then Except.ok () else Except.error (Err.failure "execve failed"))

/-- The tmpfs mount issued by `mount::tmpfs`. -/
def tmpfsCall (target : String) : MountCall :=
  { source := some "tmpfs", target := target, fstype := some "tmpfs",
    flags := [], data := some "mode=1777" }

/-- The squashfs mount issued by `mount::squashfs`: the loop device,
mounted read-only at the target. -/
def squashfsCall (loop_device_path : String) (target : String) : MountCall :=
  { source := some loop_device_path, target := target, fstype := some "squashfs",
    flags := [MsFlag.MS_RDONLY], data := none }

/-- The option string built by `mount::overlayfs` with `format!`. -/
def overlayOptions (target : String) : String :=
  "lowerdir=" ++ target ++ "/lower,upperdir=" ++ target ++ "/upper,workdir="
    ++ target ++ "/work,xino=off"

/-- The overlay mount issued by `mount::overlayfs`, at `target/merged`. -/
def overlayCall (target : String) : MountCall :=
  { source := some "overlay", target := target ++ "/merged", fstype := some "overlay",
    flags := [], data := some (overlayOptions target) }

/-- The `proc` mount of `mount::essential_system_filesystems`. -/
def procCall (t : String) : MountCall :=
  { source := some "proc", target := t ++ "/proc", fstype := some "proc",
    flags := [], data := none }

/-- The `sysfs` mount of `mount::essential_system_filesystems`. -/
def sysfsCall (t : String) : MountCall :=
  { source := some "sysfs", target := t ++ "/sys", fstype := some "sysfs",
    flags := [], data := none }

/-- The bind mount of the host's `/dev` in
`mount::essential_system_filesystems`. -/
def devBindCall (t : String) : MountCall :=
  { source := some "/dev", target := t ++ "/dev", fstype := none,
    flags := [MsFlag.MS_BIND], data := none }

/-- The `devpts` mount of `mount::essential_system_filesystems`. -/
def devptsCall (t : String) : MountCall :=
  { source := some "devpts", target := t ++ "/dev/pts", fstype := some "devpts",
    flags := [], data := none }

/-- The `fstypes_and_mountpoints` vector of
`mount::non_essential_system_filesystems`, in source order. -/
def nonEssentialPairs (t : String) : List (String × String) :=
  [("mqueue", t ++ "/dev/mqueue"),
   ("cgroup2", t ++ "/sys/fs/cgroup"),
   ("bpf", t ++ "/sys/fs/bpf"),
   ("configfs", t ++ "/sys/kernel/config"),
   ("tracefs", t ++ "/sys/kernel/tracing"),
   ("efivarfs", t ++ "/sys/firmware/efi/efivars"),
   ("securityfs", t ++ "/sys/kernel/security"),
   ("pstore", t ++ "/sys/fs/pstore"),
   ("hugetlbfs", t ++ "/dev/hugepages"),
   ("binfmt_misc", t ++ "/proc/sys/fs/binfmt_misc"),
   ("fusectl", t ++ "/sys/fs/fuse/connections"),
   ("debugfs", t ++ "/sys/kernel/debug")]

/-- The mount call attempted for one best-effort filesystem: the fstype
is both the source and the filesystem type, with no flags and no data. -/
def nonEssentialCall (p : String × String) : MountCall :=
  { source := some p.1, target := p.2, fstype := some p.1, flags := [], data := none }

/-- All twelve best-effort mount calls, in attempt order. -/
def nonEssentialCalls (t : String) : List MountCall :=
  (nonEssentialPairs t).map nonEssentialCall

/-- The bind-mount half of one host-bridge entry in
`mount::network_configuration`: host `/file` onto `target/file`. -/
def bindCall (t : String) (file : String) : MountCall :=
  { source := some ("/" ++ file), target := t ++ "/" ++ file, fstype := none,
    flags := [MsFlag.MS_BIND], data := none }

/-- The read-only remount half of one host-bridge entry in
`mount::network_configuration`. -/
def remountCall (t : String) (file : String) : MountCall :=
  { source := none, target := t ++ "/" ++ file, fstype := none,
    flags := [MsFlag.MS_REMOUNT, MsFlag.MS_BIND, MsFlag.MS_RDONLY], data := none }

/-- The `network_configuration_files` array, in source order. -/
def netFiles : List String := ["etc/resolv.conf", "etc/hostname", "etc/hosts"]

/-- The loop body of `mount::network_configuration`: for each file, a
bind mount then a read-only remount, both propagating failure with `?`. -/
def netLoop (K : Kernel) (t : String) : List String → Res Unit
  | [] => ([], Except.ok ())
  | f :: rest =>
    Res.bind (mountStep K (bindCall t f)) (fun _ =>
    Res.bind (mountStep K (remountCall t f)) (fun _ =>
    netLoop K t rest))

namespace Mount

/-- `mount::tmpfs`. -/
def tmpfs (K : Kernel) (target : String) : Res Unit :=
  mountStep K (tmpfsCall target)

/-- `mount::squashfs`. -/
def squashfs (K : Kernel) (loop_device_path : String) (target : String) : Res Unit :=
  mountStep K (squashfsCall loop_device_path target)

/-- `mount::overlayfs`: build the option string (`CString::new` fails on
an interior NUL, propagated with `?`), then mount at `target/merged`. -/
def overlayfs (K : Kernel) (target : String) : Res Unit :=
  if hasNul (overlayOptions target) then ([], Except.error (Err.failure "nul error"))
  else mountStep K (overlayCall target)

/-- `mount::essential_system_filesystems`: proc, sysfs, the `/dev` bind
mount and devpts, in order, each propagating failure with `?`. -/
def essential_system_filesystems (K : Kernel) (target : String) : Res Unit :=
  Res.bind (mountStep K (procCall target)) (fun _ =>
  Res.bind (mountStep K (sysfsCall target)) (fun _ =>
  Res.bind (mountStep K (devBindCall target)) (fun _ =>
  mountStep K (devptsCall target))))

/-- `mount::non_essential_system_filesystems`: attempt every entry of
the vector; a failed mount is only logged (the match arms discard the
outcome), so every attempt is recorded and the function always returns
`Ok(())`. -/
def non_essential_system_filesystems (_K : Kernel) (target : String) : Res Unit :=
  ((nonEssentialCalls target).map Event.mountEv, Except.ok ())

/-- `mount::network_configuration` over the three files. -/
def network_configuration (K : Kernel) (target : String) : Res Unit :=
  netLoop K target netFiles

end Mount

/-- The hard-coded base directory chosen in `main`
(`let useless_dir = PathBuf::from_str("/proc/self/fd")`). -/
def uselessDir : String := "/proc/self/fd"

/-- `main`'s `rootfs_dir = useless_dir.join("merged")`. -/
def rootfsDir : String := uselessDir ++ "/merged"

/-- `main`: the whole bootstrap pipeline, in source order.  The locator
result is unwrapped with `.expect("squashfs section not found")`, which
panics on `None`; every later step propagates failure with `?`. -/
def main_run (K : Kernel) (args : List String) : Res Unit :=
  match get_squashfs_section_address K with
  | Except.error e => ([], Except.error e)
  | Except.ok none => ([], Except.error (Err.panicked "squashfs section not found"))
  | Except.ok (some squashfs_offset) =>
    Res.bind (enter_new_mount_ns K) (fun _ =>
    Res.bind (create_loop_device K "/proc/self/exe" squashfs_offset) (fun _ =>
    Res.bind (get_loop_device_path K) (fun loop_device_path =>
    Res.bind (Mount.tmpfs K uselessDir) (fun _ =>
    Res.bind (create_overlayfs_directories K uselessDir) (fun _ =>
    Res.bind (Mount.squashfs K loop_device_path (uselessDir ++ "/lower")) (fun _ =>
    Res.bind (Mount.overlayfs K uselessDir) (fun _ =>
    Res.bind (Mount.essential_system_filesystems K rootfsDir) (fun _ =>
    Res.bind (Mount.non_essential_system_filesystems K rootfsDir) (fun _ =>
    Res.bind (Mount.network_configuration K rootfsDir) (fun _ =>
    Res.bind (pivot_rootfs_place_old_at_mnt_root K rootfsDir) (fun _ =>
    exec_zsh K args)))))))))))

/-- All the fatal (error-propagating) kernel operations of the pipeline
strictly before the `pivot_root` call succeed.  Deliberately says nothing
about the twelve best-effort mounts, nor about `pivot_root`, `chdir` or
`execve` (whose attempts are recorded regardless of outcome). -/
def fatalOk (K : Kernel) (lp : String) : Prop :=
  K.unshareOk = true ∧
  K.mountOk privateRecRootCall = true ∧
  K.loopFreeOk = true ∧
  K.loopAttachOk = true ∧
  K.mountOk (tmpfsCall uselessDir) = true ∧
  K.mkdirOk (uselessDir ++ "/lower") = true ∧
  K.mkdirOk (uselessDir ++ "/work") = true ∧
  K.mkdirOk (uselessDir ++ "/upper") = true ∧
  K.mkdirOk (uselessDir ++ "/merged") = true ∧
  K.mountOk (squashfsCall lp (uselessDir ++ "/lower")) = true ∧
  K.mountOk (overlayCall uselessDir) = true ∧
  K.mountOk (procCall rootfsDir) = true ∧
  K.mountOk (sysfsCall rootfsDir) = true ∧
  K.mountOk (devBindCall rootfsDir) = true ∧
  K.mountOk (devptsCall rootfsDir) = true ∧
  K.mountOk (bindCall rootfsDir "etc/resolv.conf") = true ∧
  K.mountOk (remountCall rootfsDir "etc/resolv.conf") = true ∧
  K.mountOk (bindCall rootfsDir "etc/hostname") = true ∧
  K.mountOk (remountCall rootfsDir "etc/hostname") = true ∧
  K.mountOk (bindCall rootfsDir "etc/hosts") = true ∧
  K.mountOk (remountCall rootfsDir "etc/hosts") = true ∧
  K.mkdirOk (rootfsDir ++ "/mnt/root") = true

instance (K : Kernel) (lp : String) : Decidable (fatalOk K lp) := by
  unfold fatalOk
  infer_instance

/-- The trace of every kernel operation up to and including the
`pivot_root` attempt, for a run in which all fatal pre-pivot operations
succeed. -/
def preTrace (offset : Nat) (lp : String) : List Event :=
  [Event.unshareNewNS,
   Event.mountEv privateRecRootCall,
   Event.loopAttach "/proc/self/exe" offset true,
   Event.mountEv (tmpfsCall uselessDir),
   Event.mkdirEv (uselessDir ++ "/lower") 448,
   Event.mkdirEv (uselessDir ++ "/work") 448,
   Event.mkdirEv (uselessDir ++ "/upper") 448,
   Event.mkdirEv (uselessDir ++ "/merged") 448,
   Event.mountEv (squashfsCall lp (uselessDir ++ "/lower")),
   Event.mountEv (overlayCall uselessDir),
   Event.mountEv (procCall rootfsDir),
   Event.mountEv (sysfsCall rootfsDir),
   Event.mountEv (devBindCall rootfsDir),
   Event.mountEv (devptsCall rootfsDir)]
  ++ (nonEssentialCalls rootfsDir).map Event.mountEv
  ++ [Event.mountEv (bindCall rootfsDir "etc/resolv.conf"),
      Event.mountEv (remountCall rootfsDir "etc/resolv.conf"),
      Event.mountEv (bindCall rootfsDir "etc/hostname"),
      Event.mountEv (remountCall rootfsDir "etc/hostname"),
      Event.mountEv (bindCall rootfsDir "etc/hosts"),
      Event.mountEv (remountCall rootfsDir "etc/hosts"),
      Event.mkdirEv (rootfsDir ++ "/mnt/root") 448,
      Event.pivotRootEv rootfsDir (rootfsDir ++ "/mnt/root")]

/-- The events after the `pivot_root` attempt: `chdir("/root")` happens
only when the pivot succeeded, the `execve` only when the chdir also
succeeded. -/
def postPivotTrace (K : Kernel) (rest : List String) : List Event :=
  if K.pivotOk rootfsDir (rootfsDir ++ "/mnt/root") then
    Event.chdirEv "/root" ::
      (if K.chdirOk "/root" then
        [Event.execveEv "/bin/zsh" ("zsh" :: rest.map toCStringLossy) []]
      else [])
  else []

/-- A path is shadowed by a trace when some mount in it targets exactly
that path: the kernel then resolves the path to the mounted filesystem
and the path's previous contents become unreachable through it. -/
def shadowed (t : List Event) (p : String) : Prop :=
  ∃ c : MountCall, Event.mountEv c ∈ t ∧ c.target = p

/-- An ELF whose only section is named ".squashfs", stored at file
offset 4096 but mapped at virtual address 8192. -/
def elfAddrNeOffset : ElfFile :=
  { section_headers := [{ sh_name := 1, sh_addr := 8192, sh_offset := 4096 }],
    shdr_strtab := [(1, ".squashfs")] }

/-- An ELF with a ".squashfs" section at offset and address 4096. -/
def elfGood : ElfFile :=
  { section_headers := [{ sh_name := 0, sh_addr := 4096, sh_offset := 4096 }],
    shdr_strtab := [(0, ".squashfs")] }

/-- An ELF that parses but has no section named ".squashfs". -/
def elfNoSquash : ElfFile :=
  { section_headers := [{ sh_name := 0, sh_addr := 0, sh_offset := 0 }],
    shdr_strtab := [(0, ".text")] }

/-- An ELF that parses but whose only section has a name index that the
string table cannot resolve. -/
def elfBadStrtab : ElfFile :=
  { section_headers := [{ sh_name := 7, sh_addr := 0, sh_offset := 0 }],
    shdr_strtab := [] }

/-- A kernel oracle on which every operation succeeds. -/
def kernAllOk : Kernel :=
  { elf := Except.ok elfGood,
    unshareOk := true,
    mountOk := fun _ => true,
    mkdirOk := fun _ => true,
    loopFreeOk := true,
    loopAttachOk := true,
    loopPath := some "/dev/loop0",
    pivotOk := fun _ _ => true,
    chdirOk := fun _ => true,
    execOk := true }

/-- A kernel oracle that rejects exactly the twelve best-effort mounts
and lets everything else succeed. -/
def kernBestEffortFail : Kernel :=
  { kernAllOk with
    mountOk := fun c => !((nonEssentialCalls rootfsDir).contains c) }

/-- A kernel oracle whose executable has no ".squashfs" section. -/
def kernNoSquash : Kernel :=
  { kernAllOk with elf := Except.ok elfNoSquash }

/-- A kernel oracle whose executable has an unresolvable section name. -/
def kernBadStrtab : Kernel :=
  { kernAllOk with elf := Except.ok elfBadStrtab }

/-- A kernel oracle whose executable stores the ".squashfs" payload at
file offset 4096 while the section is mapped at virtual address 8192. -/
def kernAddrNeOffset : Kernel :=
  { kernAllOk with elf := Except.ok elfAddrNeOffset }

@[simp]
theorem Res.bind_err {α β : Type} (t : List Event) (e : Err) (f : α → Res β) :
    Res.bind (t, Except.error e) f = (t, Except.error e) := rfl

@[simp]
theorem Res.bind_ok {α β : Type} (t : List Event) (a : α) (f : α → Res β) :
    Res.bind (t, Except.ok a) f = (t ++ (f a).1, (f a).2) := rfl

theorem overlayOptions_uselessDir_noNul : hasNul (overlayOptions uselessDir) = false := by
  decide

theorem map_toCStringLossy_of_noNul (l : List String) (h : ∀ s ∈ l, hasNul s = false) :
    l.map toCStringLossy = l := by
  induction l with
  | nil => rfl
  | cons a t ih =>
    have ha : hasNul a = false := h a (List.mem_cons_self a t)
    have ht : t.map toCStringLossy = t :=
      ih (fun s hs => h s (List.mem_cons_of_mem a hs))
    simp [toCStringLossy, ha, ht]

/-- The trace of a run in which every fatal pre-pivot operation succeeds
is exactly `preTrace` followed by `postPivotTrace`, for any behavior of
the twelve best-effort mounts and of pivot, chdir and execve. -/
theorem main_run_trace_of_fatalOk (K : Kernel) (offset : Nat) (lp : String)
    (a : String) (rest : List String)
    (hget : get_squashfs_section_address K = Except.ok (some offset))
    (hlp : K.loopPath = some lp)
    (hfat : fatalOk K lp) :
    (main_run K (a :: rest)).1 = preTrace offset lp ++ postPivotTrace K rest := by
  obtain ⟨h1, h2, h3, h4, h5, h6, h7, h8, h9, h10, h11, h12, h13, h14, h15,
    h16, h17, h18, h19, h20, h21, h22⟩ := hfat
  cases hp : K.pivotOk rootfsDir (rootfsDir ++ "/mnt/root") <;>
    cases hc : K.chdirOk "/root" <;>
      simp [main_run, hget, enter_new_mount_ns, mountStep, mkdirStep, create_loop_device,
        get_loop_device_path, hlp, Mount.tmpfs, Mount.squashfs, Mount.overlayfs,
        overlayOptions_uselessDir_noNul, Mount.essential_system_filesystems,
        Mount.non_essential_system_filesystems, Mount.network_configuration, netLoop,
        netFiles, create_overlayfs_directories, pivot_rootfs_place_old_at_mnt_root,
        exec_zsh, preTrace, postPivotTrace, hp, hc,
        h1, h2, h3, h4, h5, h6, h7, h8, h9, h10, h11, h12, h13, h14, h15,
        h16, h17, h18, h19, h20, h21, h22]

/-- C1: the claim says the locator returns the section's file offset as
stored in the section header, not its mapped virtual address.  The code
returns `section.sh_addr`, the virtual address: on a binary whose only
section is named ".squashfs" with payload at file offset 4096 but mapped
at virtual address 8192, the locator returns 8192, not the file offset
4096 the claim demands. -/
theorem C1_locator_returns_virtual_address_not_file_offset :
    findSquashfs elfAddrNeOffset = LocOutcome.found 8192
    ∧ elfAddrNeOffset.section_headers.map (fun s => s.sh_offset) = [4096]
    ∧ elfAddrNeOffset.section_headers.map (fun s => s.sh_addr) = [8192]
    ∧ findSquashfs elfAddrNeOffset ≠ LocOutcome.found 4096
    ∧ get_squashfs_section_address kernAddrNeOffset = Except.ok (some 8192) := by
  refine ⟨by decide, by decide, by decide, by decide, by decide⟩

/-- C2: the Root Switcher does create the mountpoint at the fixed
relative path `mnt/root` inside `merged` and does issue the root switch
with `merged` as the new root, but the final working-directory change
goes to `/root` — a subdirectory of the new root — not to the new root
`/` itself, as the claim (and the spec's declared intended contract)
states. -/
theorem C2_pivot_then_chdir_targets_root_subdirectory :
    pivot_rootfs_place_old_at_mnt_root kernAllOk rootfsDir
      = ([Event.mkdirEv (rootfsDir ++ "/mnt/root") 448,
          Event.pivotRootEv rootfsDir (rootfsDir ++ "/mnt/root"),
          Event.chdirEv "/root"], Except.ok ())
    ∧ ("/root" : String) ≠ "/" := by
  exact ⟨rfl, by decide⟩

/-- C4: when the executable parses as ELF but contains no section named
".squashfs", `main` panics with "squashfs section not found" and its
trace is empty: no unshare, no mount, no loop-device attachment and no
pivot_root has been attempted. -/
theorem C4_missing_section_exits_before_side_effects (K : Kernel) (args : List String)
    (elf : ElfFile) (helf : K.elf = Except.ok elf)
    (hns : findSquashfs elf = LocOutcome.notFound) :
    main_run K args = ([], Except.error (Err.panicked "squashfs section not found")) := by
  simp [main_run, get_squashfs_section_address, helf, hns]

theorem C4_witness :
    kernNoSquash.elf = Except.ok elfNoSquash
    ∧ findSquashfs elfNoSquash = LocOutcome.notFound
    ∧ main_run kernNoSquash ["snow"]
        = ([], Except.error (Err.panicked "squashfs section not found")) :=
  ⟨rfl, by decide,
   C4_missing_section_exits_before_side_effects kernNoSquash ["snow"] elfNoSquash rfl
     (by decide)⟩

/-- C9: on an ELF that parses but whose only section has a name index
the string table cannot resolve, the locator panics via `expect` with
"failed to get section name" instead of returning a found offset or the
not-found result. -/
theorem C9_locator_panics_on_unresolvable_section_name :
    findSquashfs elfBadStrtab = LocOutcome.panicked "failed to get section name"
    ∧ get_squashfs_section_address kernBadStrtab
        = Except.error (Err.panicked "failed to get section name") := by
  exact ⟨by decide, by decide⟩

/-- C3: the four required mounts (proc, sysfs, the bind mount of the
host's `/dev`, devpts) succeed as a whole exactly when each one
succeeds, so the failure of any one makes the operation return an
error; the twelve best-effort mounts are all attempted and the operation
returns success for every subset of them that fails (its result never
depends on the mount oracle); and for any behavior of the best-effort
mounts, a run in which the fatal steps succeed reaches the root-switch
attempt. -/
theorem C3_required_fatal_best_effort_independent :
    (∀ K t, (Mount.essential_system_filesystems K t).2 = Except.ok () ↔
      (K.mountOk (procCall t) = true ∧ K.mountOk (sysfsCall t) = true ∧
       K.mountOk (devBindCall t) = true ∧ K.mountOk (devptsCall t) = true))
    ∧ (∀ K t, (Mount.non_essential_system_filesystems K t).2 = Except.ok ()
        ∧ (Mount.non_essential_system_filesystems K t).1
            = (nonEssentialCalls t).map Event.mountEv)
    ∧ (∀ K offset lp a rest,
        get_squashfs_section_address K = Except.ok (some offset) →
        K.loopPath = some lp → fatalOk K lp →
        Event.pivotRootEv rootfsDir (rootfsDir ++ "/mnt/root")
          ∈ (main_run K (a :: rest)).1) := by
  refine ⟨?_, ?_, ?_⟩
  · intro K t
    cases h1 : K.mountOk (procCall t) <;>
      cases h2 : K.mountOk (sysfsCall t) <;>
        cases h3 : K.mountOk (devBindCall t) <;>
          cases h4 : K.mountOk (devptsCall t) <;>
            simp [Mount.essential_system_filesystems, mountStep, h1, h2, h3, h4]
  · intro K t
    exact ⟨rfl, rfl⟩
  · intro K offset lp a rest hget hlp hfat
    rw [main_run_trace_of_fatalOk K offset lp a rest hget hlp hfat]
    simp [preTrace]

theorem C3_witness :
    get_squashfs_section_address kernBestEffortFail = Except.ok (some 4096)
    ∧ kernBestEffortFail.loopPath = some "/dev/loop0"
    ∧ fatalOk kernBestEffortFail "/dev/loop0"
    ∧ (∀ c ∈ nonEssentialCalls rootfsDir, kernBestEffortFail.mountOk c = false)
    ∧ Event.pivotRootEv rootfsDir (rootfsDir ++ "/mnt/root")
        ∈ (main_run kernBestEffortFail ["snow"]).1 :=
  ⟨by decide, rfl, by decide, by decide,
   C3_required_fatal_best_effort_independent.2.2 kernBestEffortFail 4096 "/dev/loop0"
     "snow" [] (by decide) rfl (by decide)⟩

/-- C5: `enter_new_mount_ns` first detaches the mount namespace
(unshare) and then marks the whole tree at `/` private and recursive,
succeeding exactly when both operations succeed; and in `main`, any
mount other than that private-recursive marker can appear in the trace
only after both the unshare and the marker mount have succeeded, at the
very front of the trace. -/
theorem C5_isolation_precedes_every_mount :
    (∀ K, K.unshareOk = true →
      (enter_new_mount_ns K).1 = [Event.unshareNewNS, Event.mountEv privateRecRootCall])
    ∧ privateRecRootCall.target = "/"
    ∧ privateRecRootCall.flags = [MsFlag.MS_PRIVATE, MsFlag.MS_REC]
    ∧ (∀ K, (enter_new_mount_ns K).2 = Except.ok () ↔
        (K.unshareOk = true ∧ K.mountOk privateRecRootCall = true))
    ∧ (∀ K args c, Event.mountEv c ∈ (main_run K args).1 → c ≠ privateRecRootCall →
        K.unshareOk = true ∧ K.mountOk privateRecRootCall = true ∧
        ∃ rest, (main_run K args).1
          = Event.unshareNewNS :: Event.mountEv privateRecRootCall :: rest) := by
  refine ⟨?_, rfl, rfl, ?_, ?_⟩
  · intro K h
    simp [enter_new_mount_ns, mountStep, h]
  · intro K
    cases hu : K.unshareOk <;> cases hm : K.mountOk privateRecRootCall <;>
      simp [enter_new_mount_ns, mountStep, hu, hm]
  · intro K args c hmem hne
    cases hget : get_squashfs_section_address K with
    | error e =>
      simp [main_run, hget] at hmem
    | ok opt =>
      cases opt with
      | none =>
        simp [main_run, hget] at hmem
      | some offset =>
        cases hu : K.unshareOk with
        | false =>
          simp [main_run, hget, enter_new_mount_ns, mountStep, hu] at hmem
        | true =>
          cases hm : K.mountOk privateRecRootCall with
          | false =>
            simp [main_run, hget, enter_new_mount_ns, mountStep, hu, hm] at hmem
            exact absurd hmem hne
          | true =>
            refine ⟨rfl, rfl, ?_⟩
            simp [main_run, hget, enter_new_mount_ns, mountStep, hu, hm]

theorem C5_witness :
    kernAllOk.unshareOk = true
    ∧ Event.mountEv (tmpfsCall uselessDir) ∈ (main_run kernAllOk ["snow"]).1
    ∧ tmpfsCall uselessDir ≠ privateRecRootCall
    ∧ (kernAllOk.unshareOk = true ∧ kernAllOk.mountOk privateRecRootCall = true ∧
        ∃ rest, (main_run kernAllOk ["snow"]).1
          = Event.unshareNewNS :: Event.mountEv privateRecRootCall :: rest) :=
  ⟨rfl, by decide, by decide,
   C5_isolation_precedes_every_mount.2.2.2.2 kernAllOk ["snow"] (tmpfsCall uselessDir)
     (by decide) (by decide)⟩

/-- C6: the Overlay Assembler creates the four subdirectories `lower`,
`work`, `upper`, `merged` with mode 0o700 (448), succeeding exactly when
all four mkdirs succeed; the squashfs mount targets `lower` read-only
with filesystem type squashfs; the overlay mount targets `merged` with
`lowerdir` = lower, `upperdir` = upper, `workdir` = work; and in a run
of `main` whose fatal steps succeed, the tmpfs mount on the shared base
directory precedes the four mkdirs, which precede the squashfs mount,
which precedes the overlay mount. -/
theorem C6_overlay_assembly :
    (∀ K t, (create_overlayfs_directories K t).2 = Except.ok () ↔
      (K.mkdirOk (t ++ "/lower") = true ∧ K.mkdirOk (t ++ "/work") = true ∧
       K.mkdirOk (t ++ "/upper") = true ∧ K.mkdirOk (t ++ "/merged") = true))
    ∧ (∀ K t, K.mkdirOk (t ++ "/lower") = true → K.mkdirOk (t ++ "/work") = true →
        K.mkdirOk (t ++ "/upper") = true →
        (create_overlayfs_directories K t).1 =
          [Event.mkdirEv (t ++ "/lower") 448, Event.mkdirEv (t ++ "/work") 448,
           Event.mkdirEv (t ++ "/upper") 448, Event.mkdirEv (t ++ "/merged") 448])
    ∧ (∀ lp t, squashfsCall lp t =
        { source := some lp, target := t, fstype := some "squashfs",
          flags := [MsFlag.MS_RDONLY], data := none })
    ∧ (∀ t, overlayCall t =
        { source := some "overlay", target := t ++ "/merged", fstype := some "overlay",
          flags := [],
          data := some ("lowerdir=" ++ t ++ "/lower,upperdir=" ++ t ++ "/upper,workdir="
            ++ t ++ "/work,xino=off") })
    ∧ (∀ K offset lp a rest,
        get_squashfs_section_address K = Except.ok (some offset) →
        K.loopPath = some lp → fatalOk K lp →
        (main_run K (a :: rest)).1 =
          [Event.unshareNewNS, Event.mountEv privateRecRootCall,
           Event.loopAttach "/proc/self/exe" offset true,
           Event.mountEv (tmpfsCall uselessDir),
           Event.mkdirEv (uselessDir ++ "/lower") 448,
           Event.mkdirEv (uselessDir ++ "/work") 448,
           Event.mkdirEv (uselessDir ++ "/upper") 448,
           Event.mkdirEv (uselessDir ++ "/merged") 448,
           Event.mountEv (squashfsCall lp (uselessDir ++ "/lower")),
           Event.mountEv (overlayCall uselessDir)]
          ++ ([Event.mountEv (procCall rootfsDir), Event.mountEv (sysfsCall rootfsDir),
               Event.mountEv (devBindCall rootfsDir), Event.mountEv (devptsCall rootfsDir)]
              ++ (nonEssentialCalls rootfsDir).map Event.mountEv
              ++ [Event.mountEv (bindCall rootfsDir "etc/resolv.conf"),
                  Event.mountEv (remountCall rootfsDir "etc/resolv.conf"),
                  Event.mountEv (bindCall rootfsDir "etc/hostname"),
                  Event.mountEv (remountCall rootfsDir "etc/hostname"),
                  Event.mountEv (bindCall rootfsDir "etc/hosts"),
                  Event.mountEv (remountCall rootfsDir "etc/hosts"),
                  Event.mkdirEv (rootfsDir ++ "/mnt/root") 448,
                  Event.pivotRootEv rootfsDir (rootfsDir ++ "/mnt/root")]
              ++ postPivotTrace K rest)) := by
  refine ⟨?_, ?_, fun lp t => rfl, fun t => rfl, ?_⟩
  · intro K t
    cases h1 : K.mkdirOk (t ++ "/lower") <;>
      cases h2 : K.mkdirOk (t ++ "/work") <;>
        cases h3 : K.mkdirOk (t ++ "/upper") <;>
          cases h4 : K.mkdirOk (t ++ "/merged") <;>
            simp [create_overlayfs_directories, mkdirStep, h1, h2, h3, h4]
  · intro K t h1 h2 h3
    simp [create_overlayfs_directories, mkdirStep, h1, h2, h3]
  · intro K offset lp a rest hget hlp hfat
    rw [main_run_trace_of_fatalOk K offset lp a rest hget hlp hfat]
    simp [preTrace]

theorem C6_witness :
    get_squashfs_section_address kernAllOk = Except.ok (some 4096)
    ∧ kernAllOk.loopPath = some "/dev/loop0"
    ∧ fatalOk kernAllOk "/dev/loop0"
    ∧ (main_run kernAllOk ["snow"]).1 =
        [Event.unshareNewNS, Event.mountEv privateRecRootCall,
         Event.loopAttach "/proc/self/exe" 4096 true,
         Event.mountEv (tmpfsCall uselessDir),
         Event.mkdirEv (uselessDir ++ "/lower") 448,
         Event.mkdirEv (uselessDir ++ "/work") 448,
         Event.mkdirEv (uselessDir ++ "/upper") 448,
         Event.mkdirEv (uselessDir ++ "/merged") 448,
         Event.mountEv (squashfsCall "/dev/loop0" (uselessDir ++ "/lower")),
         Event.mountEv (overlayCall uselessDir)]
        ++ ([Event.mountEv (procCall rootfsDir), Event.mountEv (sysfsCall rootfsDir),
             Event.mountEv (devBindCall rootfsDir), Event.mountEv (devptsCall rootfsDir)]
            ++ (nonEssentialCalls rootfsDir).map Event.mountEv
            ++ [Event.mountEv (bindCall rootfsDir "etc/resolv.conf"),
                Event.mountEv (remountCall rootfsDir "etc/resolv.conf"),
                Event.mountEv (bindCall rootfsDir "etc/hostname"),
                Event.mountEv (remountCall rootfsDir "etc/hostname"),
                Event.mountEv (bindCall rootfsDir "etc/hosts"),
                Event.mountEv (remountCall rootfsDir "etc/hosts"),
                Event.mkdirEv (rootfsDir ++ "/mnt/root") 448,
                Event.pivotRootEv rootfsDir (rootfsDir ++ "/mnt/root")]
            ++ postPivotTrace kernAllOk []) :=
  ⟨by decide, rfl, by decide,
   C6_overlay_assembly.2.2.2.2 kernAllOk 4096 "/dev/loop0" "snow" [] (by decide) rfl
     (by decide)⟩

/-- C7: the host-bridge step processes exactly the three files
`etc/resolv.conf`, `etc/hostname`, `etc/hosts` in that order; for each
file it first issues a bind mount from the host path and then a
read-only remount in place; the first operation that fails ends the
whole step with an error, the attempts for later files never happening;
and it returns success exactly when all six operations succeed. -/
theorem C7_network_configuration_bind_then_remount_fatal :
    (∀ t f, (bindCall t f).flags = [MsFlag.MS_BIND]
      ∧ (bindCall t f).source = some ("/" ++ f)
      ∧ (bindCall t f).target = t ++ "/" ++ f)
    ∧ (∀ t f, (remountCall t f).flags = [MsFlag.MS_REMOUNT, MsFlag.MS_BIND, MsFlag.MS_RDONLY]
      ∧ (remountCall t f).source = none
      ∧ (remountCall t f).target = t ++ "/" ++ f)
    ∧ netFiles = ["etc/resolv.conf", "etc/hostname", "etc/hosts"]
    ∧ (∀ K t, Mount.network_configuration K t =
        if K.mountOk (bindCall t "etc/resolv.conf") then
          if K.mountOk (remountCall t "etc/resolv.conf") then
            if K.mountOk (bindCall t "etc/hostname") then
              if K.mountOk (remountCall t "etc/hostname") then
                if K.mountOk (bindCall t "etc/hosts") then
                  if K.mountOk (remountCall t "etc/hosts") then
                    ([Event.mountEv (bindCall t "etc/resolv.conf"),
                      Event.mountEv (remountCall t "etc/resolv.conf"),
                      Event.mountEv (bindCall t "etc/hostname"),
                      Event.mountEv (remountCall t "etc/hostname"),
                      Event.mountEv (bindCall t "etc/hosts"),
                      Event.mountEv (remountCall t "etc/hosts")], Except.ok ())
                  else
                    ([Event.mountEv (bindCall t "etc/resolv.conf"),
                      Event.mountEv (remountCall t "etc/resolv.conf"),
                      Event.mountEv (bindCall t "etc/hostname"),
                      Event.mountEv (remountCall t "etc/hostname"),
                      Event.mountEv (bindCall t "etc/hosts"),
                      Event.mountEv (remountCall t "etc/hosts")],
                     Except.error (Err.failure "mount failed"))
                else
                  ([Event.mountEv (bindCall t "etc/resolv.conf"),
                    Event.mountEv (remountCall t "etc/resolv.conf"),
                    Event.mountEv (bindCall t "etc/hostname"),
                    Event.mountEv (remountCall t "etc/hostname"),
                    Event.mountEv (bindCall t "etc/hosts")],
                   Except.error (Err.failure "mount failed"))
              else
                ([Event.mountEv (bindCall t "etc/resolv.conf"),
                  Event.mountEv (remountCall t "etc/resolv.conf"),
                  Event.mountEv (bindCall t "etc/hostname"),
                  Event.mountEv (remountCall t "etc/hostname")],
                 Except.error (Err.failure "mount failed"))
            else
              ([Event.mountEv (bindCall t "etc/resolv.conf"),
                Event.mountEv (remountCall t "etc/resolv.conf"),
                Event.mountEv (bindCall t "etc/hostname")],
               Except.error (Err.failure "mount failed"))
          else
            ([Event.mountEv (bindCall t "etc/resolv.conf"),
              Event.mountEv (remountCall t "etc/resolv.conf")],
             Except.error (Err.failure "mount failed"))
        else
          ([Event.mountEv (bindCall t "etc/resolv.conf")],
           Except.error (Err.failure "mount failed")))
    ∧ (∀ K t, (Mount.network_configuration K t).2 = Except.ok () ↔
        (K.mountOk (bindCall t "etc/resolv.conf") = true
         ∧ K.mountOk (remountCall t "etc/resolv.conf") = true
         ∧ K.mountOk (bindCall t "etc/hostname") = true
         ∧ K.mountOk (remountCall t "etc/hostname") = true
         ∧ K.mountOk (bindCall t "etc/hosts") = true
         ∧ K.mountOk (remountCall t "etc/hosts") = true)) := by
  refine ⟨fun t f => ⟨rfl, rfl, rfl⟩, fun t f => ⟨rfl, rfl, rfl⟩, rfl, ?_, ?_⟩ <;>
    intro K t <;>
      cases h1 : K.mountOk (bindCall t "etc/resolv.conf") <;>
        cases h2 : K.mountOk (remountCall t "etc/resolv.conf") <;>
          cases h3 : K.mountOk (bindCall t "etc/hostname") <;>
            cases h4 : K.mountOk (remountCall t "etc/hostname") <;>
              cases h5 : K.mountOk (bindCall t "etc/hosts") <;>
                cases h6 : K.mountOk (remountCall t "etc/hosts") <;>
                  simp [Mount.network_configuration, netFiles, netLoop, mountStep,
                    h1, h2, h3, h4, h5, h6]

/-- C8: `exec_zsh` replaces the process image with `/bin/zsh`, passing
the original argument vector verbatim except that the first argument is
rewritten to "zsh", and always passing an empty environment block.
(Process arguments delivered by `execve` cannot contain an interior NUL
byte, which is the `hnul` hypothesis.) -/
theorem C8_exec_zsh_rewrites_argv0_empty_env (K : Kernel) (a : String) (rest : List String)
    (hnul : ∀ s ∈ rest, hasNul s = false) :
    exec_zsh K (a :: rest)
      = ([Event.execveEv "/bin/zsh" ("zsh" :: rest) []],
         if K.execOk then Except.ok () else Except.error (Err.failure "execve failed")) := by
  simp [exec_zsh, map_toCStringLossy_of_noNul rest hnul]

theorem C8_witness :
    (∀ s ∈ (["-c", "ls"] : List String), hasNul s = false)
    ∧ exec_zsh kernAllOk ["snow", "-c", "ls"]
        = ([Event.execveEv "/bin/zsh" ["zsh", "-c", "ls"] []],
           if kernAllOk.execOk then Except.ok ()
           else Except.error (Err.failure "execve failed")) :=
  ⟨by decide,
   C8_exec_zsh_rewrites_argv0_empty_env kernAllOk "snow" ["-c", "ls"] (by decide)⟩

/-- C10: the base directory for the tmpfs, the overlay scaffold and the
eventual new root is the hard-coded path `/proc/self/fd` in every
execution: in any run whose fatal steps succeed, the tmpfs is mounted on
`/proc/self/fd`, the four overlay directories are created under it, the
root switch targets `/proc/self/fd/merged`, and `/proc/self/fd` is
shadowed by a mount, hiding its original contents. -/
theorem C10_base_directory_is_fixed_proc_self_fd :
    uselessDir = "/proc/self/fd"
    ∧ rootfsDir = uselessDir ++ "/merged"
    ∧ (∀ K offset lp a rest,
        get_squashfs_section_address K = Except.ok (some offset) →
        K.loopPath = some lp → fatalOk K lp →
        Event.mountEv (tmpfsCall uselessDir) ∈ (main_run K (a :: rest)).1
        ∧ Event.mkdirEv (uselessDir ++ "/lower") 448 ∈ (main_run K (a :: rest)).1
        ∧ Event.mkdirEv (uselessDir ++ "/work") 448 ∈ (main_run K (a :: rest)).1
        ∧ Event.mkdirEv (uselessDir ++ "/upper") 448 ∈ (main_run K (a :: rest)).1
        ∧ Event.mkdirEv (uselessDir ++ "/merged") 448 ∈ (main_run K (a :: rest)).1
        ∧ Event.pivotRootEv rootfsDir (rootfsDir ++ "/mnt/root") ∈ (main_run K (a :: rest)).1
        ∧ shadowed (main_run K (a :: rest)).1 uselessDir) := by
  refine ⟨rfl, rfl, ?_⟩
  intro K offset lp a rest hget hlp hfat
  rw [main_run_trace_of_fatalOk K offset lp a rest hget hlp hfat]
  refine ⟨by simp [preTrace], by simp [preTrace], by simp [preTrace], by simp [preTrace],
    by simp [preTrace], by simp [preTrace], ?_⟩
  exact ⟨tmpfsCall uselessDir, by simp [preTrace], rfl⟩

theorem C10_witness :
    get_squashfs_section_address kernAllOk = Except.ok (some 4096)
    ∧ kernAllOk.loopPath = some "/dev/loop0"
    ∧ fatalOk kernAllOk "/dev/loop0"
    ∧ (Event.mountEv (tmpfsCall uselessDir) ∈ (main_run kernAllOk ["snow"]).1
       ∧ Event.mkdirEv (uselessDir ++ "/lower") 448 ∈ (main_run kernAllOk ["snow"]).1
       ∧ Event.mkdirEv (uselessDir ++ "/work") 448 ∈ (main_run kernAllOk ["snow"]).1
       ∧ Event.mkdirEv (uselessDir ++ "/upper") 448 ∈ (main_run kernAllOk ["snow"]).1
       ∧ Event.mkdirEv (uselessDir ++ "/merged") 448 ∈ (main_run kernAllOk ["snow"]).1
       ∧ Event.pivotRootEv rootfsDir (rootfsDir ++ "/mnt/root")
           ∈ (main_run kernAllOk ["snow"]).1
       ∧ shadowed (main_run kernAllOk ["snow"]).1 uselessDir) :=
  ⟨by decide, rfl, by decide,
   C10_base_directory_is_fixed_proc_self_fd.2.2 kernAllOk 4096 "/dev/loop0" "snow" []
     (by decide) rfl (by decide)⟩

end Snow
